import Mathlib

/-!
Verification of the CTX single-header arena allocator (src/src/ctx.h).

The C code is shallowly embedded: the struct Context becomes a Lean
structure, each operation becomes a pure state-passing function, and the
size_t machine arithmetic of the C is made explicit as Nat arithmetic
modulo 2 ^ 64.  A pointer returned by context_alloc is represented by the
byte offset of the chunk inside the arena buffer; the diagnostic CTX_LOG
call on an error path is represented by a Bool flag in the result (true
exactly when the C code would print a log line).  Buffer memory is a list
of bytes (Nat values); CTX_MALLOC is calloc, which zero-fills.
-/

namespace CTX

/-- Modulus of size_t arithmetic on a 64-bit platform: all size_t values
are below this bound and additions wrap modulo it. -/
def USIZE : Nat := 2 ^ 64

/-- Embedding of struct Context (ctx.h lines 145-150): a buffer of bytes,
the cursor location, the location before the last successful allocation,
and the total size (capacity). -/
structure Context where
  buffer : List Nat
  location : Nat
  last_location : Nat
  size : Nat
deriving DecidableEq, Repr

/-- Embedding of new_context (ctx.h lines 199-208): CTX_MALLOC is
calloc (1, size), which yields a zero-filled buffer of size bytes;
location and last_location start at 0. -/
def new_context (size : Nat) : Context :=
  { buffer := List.replicate size 0
    location := 0
    last_location := 0
    size := size }

/-- Embedding of context_alloc (ctx.h lines 210-223).  The C computes
context->location + size in size_t arithmetic, so the sum wraps modulo
2 ^ 64 both in the capacity check and in the cursor advance.  The result
is the returned pointer as a byte offset into the buffer (none for NULL),
the updated context, and whether the error diagnostic was logged. -/
def context_alloc (ctx : Context) (size : Nat) : Option Nat × Context × Bool :=
  if (ctx.location + size) % USIZE > ctx.size then
    (none, ctx, true)
  else
    (some ctx.location,
     { ctx with
        last_location := ctx.location
        location := (ctx.location + size) % USIZE },
     false)

/-- Embedding of context_forget (ctx.h lines 225-235): if
last_location > location it logs and returns 0 leaving the context
unchanged; otherwise it returns location - last_location and rewinds
location to last_location.  On the success path the size_t subtraction
cannot wrap, so Nat subtraction is exact. -/
def context_forget (ctx : Context) : Nat × Context × Bool :=
  if ctx.last_location > ctx.location then
    (0, ctx, true)
  else
    (ctx.location - ctx.last_location,
     { ctx with location := ctx.last_location },
     false)

/-- Embedding of context_clear (ctx.h lines 273-276): reset both cursor
fields to 0; buffer and size are untouched. -/
def context_clear (ctx : Context) : Context :=
  { ctx with location := 0, last_location := 0 }

/-- Embedding of context_free (ctx.h lines 278-284): zero the two cursor
fields and the size, then CTX_FREE the buffer.  The struct field holding
the buffer pointer is not assigned by the C code, so the buffer field is
left as it is; only the three scalar fields change. -/
def context_free (ctx : Context) : Context :=
  { ctx with last_location := 0, location := 0, size := 0 }

/-- Memory write helper: overwrite data.length bytes of buf starting at
byte offset off, as strcpy / vsnprintf do into an in-bounds chunk. -/
def writeBytes (buf : List Nat) (off : Nat) (data : List Nat) : List Nat :=
  buf.take off ++ data ++ buf.drop (off + data.length)

/-- Embedding of context_alloc_cstring (ctx.h lines 238-249): str is the
NUL-free byte content of the C string, so strlen str = str.length; the
code allocates strlen + 1 bytes and strcpy copies the bytes plus the
terminating 0. -/
def context_alloc_cstring (ctx : Context) (str : List Nat) :
    Option Nat × Context :=
  let string_length := str.length
  match context_alloc ctx (string_length + 1) with
  | (none, ctx1, _) => (none, ctx1)
  | (some chunk, ctx1, _) =>
      (some chunk,
       { ctx1 with buffer := writeBytes ctx1.buffer chunk (str ++ [0]) })

/-- Embedding of context_alloc_cstringf (ctx.h lines 251-270).  The
variadic format arguments are abstracted by the rendered output of the
format pass: rendered is the NUL-free byte sequence vsnprintf would
produce, so the measuring call vsnprintf (NULL, 0, fmt, args) returns
rendered.length and string_length = rendered.length + 1.  The write pass
stores rendered plus the terminating 0 into the chunk.  The C function
then executes return NULL (line 269) even on this success path, so the
first component is none in both branches. -/
def context_alloc_cstringf (ctx : Context) (rendered : List Nat) :
    Option Nat × Context :=
  let string_length := rendered.length + 1
  match context_alloc ctx string_length with
  | (none, ctx1, _) => (none, ctx1)
  | (some chunk, ctx1, _) =>
      (none,
       { ctx1 with buffer := writeBytes ctx1.buffer chunk (rendered ++ [0]) })

/-- CTX_TEMP_SIZE (ctx.h lines 117-119 and 129-133): 1 MB, where the MB
helper multiplies by 1024 * 1024. -/
def CTX_TEMP_SIZE : Nat := 1024 * 1024

/-- Initial value of global_temp_context (ctx.h line 192):
buffer NULL (empty), all scalar fields 0. -/
def global_temp_context : Context :=
  { buffer := [], location := 0, last_location := 0, size := 0 }

/-- Embedding of context_talloc (ctx.h lines 287-293): the singleton is
passed and returned explicitly.  If its size is 0 it is first replaced by
new_context CTX_TEMP_SIZE, then context_alloc runs on it. -/
def context_talloc (g : Context) (size : Nat) : Option Nat × Context × Bool :=
  let g := if g.size = 0 then new_context CTX_TEMP_SIZE else g
  context_alloc g size

/-- Embedding of context_tforget (ctx.h lines 295-297): delegates to
context_forget directly, with no lazy-initialisation check. -/
def context_tforget (g : Context) : Nat × Context × Bool :=
  context_forget g

/-- Embedding of context_talloc_cstring (ctx.h lines 300-306): lazily
initialises the singleton when its size is 0, then delegates. -/
def context_talloc_cstring (g : Context) (str : List Nat) :
    Option Nat × Context :=
  let g := if g.size = 0 then new_context CTX_TEMP_SIZE else g
  context_alloc_cstring g str

/-- Embedding of context_talloc_cstringf (ctx.h lines 308-331): lazily
initialises the singleton when its size is 0, then inlines the two
vsnprintf passes of the formatted allocation; unlike
context_alloc_cstringf it returns the allocated buffer on success. -/
def context_talloc_cstringf (g : Context) (rendered : List Nat) :
    Option Nat × Context :=
  let g := if g.size = 0 then new_context CTX_TEMP_SIZE else g
  let string_length := rendered.length + 1
  match context_alloc g string_length with
  | (none, g1, _) => (none, g1)
  | (some chunk, g1, _) =>
      (some chunk,
       { g1 with buffer := writeBytes g1.buffer chunk (rendered ++ [0]) })

/-- Embedding of context_tclear (ctx.h lines 334-336): delegates to
context_clear directly, with no lazy-initialisation check. -/
def context_tclear (g : Context) : Context :=
  context_clear g

/-- Embedding of context_tfree (ctx.h lines 338-340): delegates to
context_free directly, with no lazy-initialisation check. -/
def context_tfree (g : Context) : Context :=
  context_free g

end CTX

namespace CTX

/-! ### Claim theorems -/

/-- C1: for every arena whose size field is a size_t value and every
request with location + size ≤ size (capacity), context_alloc succeeds:
it returns the chunk starting at the previous location, sets
last_location to the previous location, advances location by exactly the
requested size, leaves the buffer untouched, and logs nothing. -/
theorem c1_alloc_success (ctx : Context) (n : Nat)
    (hcap : ctx.size < USIZE) (hfit : ctx.location + n ≤ ctx.size) :
    context_alloc ctx n =
      (some ctx.location,
       { ctx with last_location := ctx.location, location := ctx.location + n },
       false) := by
  have hlt : ctx.location + n < USIZE := lt_of_le_of_lt hfit hcap
  unfold context_alloc
  rw [Nat.mod_eq_of_lt hlt, if_neg (Nat.not_lt.mpr hfit)]

/-- Witness for C1 at a concrete arena of capacity 10 with location 2 and
a request of 3 bytes. -/
theorem c1_alloc_success_witness :
    (⟨List.replicate 10 0, 2, 1, 10⟩ : Context).size < USIZE ∧
    (⟨List.replicate 10 0, 2, 1, 10⟩ : Context).location + 3 ≤
      (⟨List.replicate 10 0, 2, 1, 10⟩ : Context).size ∧
    context_alloc ⟨List.replicate 10 0, 2, 1, 10⟩ 3 =
      (some 2, ⟨List.replicate 10 0, 5, 2, 10⟩, false) :=
  ⟨by decide, by decide,
   by exact c1_alloc_success ⟨List.replicate 10 0, 2, 1, 10⟩ 3 (by decide) (by decide)⟩

/-- C2 counterexample: the claim quantifies over every arena and every
requested size whose mathematical sum with the current offset exceeds the
capacity; in the C code the sum is computed in size_t arithmetic and can
wrap.  On the arena with location 50 and capacity 100 (reachable from
new_context 100 after one 50-byte allocation), a request of 2 ^ 64 - 40
bytes has mathematical sum 2 ^ 64 + 10 > 100, yet the wrapped check
compares 10 > 100 and the allocation succeeds, mutating location to 10
and last_location to 50 with no diagnostic. -/
theorem c2_counterexample :
    50 + (2 ^ 64 - 40) > (⟨List.replicate 100 0, 50, 0, 100⟩ : Context).size ∧
    (context_alloc ⟨List.replicate 100 0, 50, 0, 100⟩ (2 ^ 64 - 40)).1 = some 50 ∧
    ((context_alloc ⟨List.replicate 100 0, 50, 0, 100⟩ (2 ^ 64 - 40)).2.1).location = 10 ∧
    ((context_alloc ⟨List.replicate 100 0, 50, 0, 100⟩ (2 ^ 64 - 40)).2.1).last_location = 50 ∧
    (context_alloc ⟨List.replicate 100 0, 50, 0, 100⟩ (2 ^ 64 - 40)).2.2 = false := by
  decide

/-- C2 amended: for every arena and every requested size whose size_t sum
with the current location does not wrap (location + size < 2 ^ 64) and
exceeds the capacity, context_alloc fails with the NULL sentinel, emits
the diagnostic log, and leaves the whole arena state (in particular
location and last_location) exactly as it was. -/
theorem c2_alloc_capacity_exceeded (ctx : Context) (n : Nat)
    (hnw : ctx.location + n < USIZE) (hover : ctx.location + n > ctx.size) :
    context_alloc ctx n = (none, ctx, true) := by
  unfold context_alloc
  rw [Nat.mod_eq_of_lt hnw, if_pos hover]

/-- Witness for the amended C2 at a concrete arena of capacity 5 with
location 3 and a request of 4 bytes. -/
theorem c2_alloc_capacity_exceeded_witness :
    (⟨List.replicate 5 0, 3, 1, 5⟩ : Context).location + 4 < USIZE ∧
    (⟨List.replicate 5 0, 3, 1, 5⟩ : Context).location + 4 >
      (⟨List.replicate 5 0, 3, 1, 5⟩ : Context).size ∧
    context_alloc ⟨List.replicate 5 0, 3, 1, 5⟩ 4 =
      (none, ⟨List.replicate 5 0, 3, 1, 5⟩, true) :=
  ⟨by decide, by decide,
   by exact c2_alloc_capacity_exceeded ⟨List.replicate 5 0, 3, 1, 5⟩ 4 (by decide) (by decide)⟩

/-- C9: for every arena, context_clear resets location and last_location
to 0 while the size (capacity) and the buffer field are unchanged: the
buffer is the identical list, so no previously written byte is modified
or zeroed. -/
theorem c9_clear_frame (ctx : Context) :
    (context_clear ctx).location = 0 ∧
    (context_clear ctx).last_location = 0 ∧
    (context_clear ctx).size = ctx.size ∧
    (context_clear ctx).buffer = ctx.buffer :=
  ⟨rfl, rfl, rfl, rfl⟩

end CTX

namespace CTX

/-! ### Shared helper lemmas -/

/-- Branch equation for context_alloc when the size_t sum does not wrap
and fits in the capacity. -/
theorem alloc_success_eq (ctx : Context) (n : Nat)
    (hlt : ctx.location + n < USIZE) (hfit : ctx.location + n ≤ ctx.size) :
    context_alloc ctx n =
      (some ctx.location,
       { ctx with last_location := ctx.location, location := ctx.location + n },
       false) := by
  unfold context_alloc
  rw [Nat.mod_eq_of_lt hlt, if_neg (Nat.not_lt.mpr hfit)]

/-- The size field of a freshly created context is the requested size. -/
theorem new_context_size_eq (C : Nat) : (new_context C).size = C := rfl

/-- The default temporary-context capacity is not 0. -/
theorem temp_size_ne_zero : ¬ CTX_TEMP_SIZE = 0 := by decide

/-- Branch equation for context_forget when last_location ≤ location. -/
theorem forget_success_eq (ctx : Context) (h : ctx.last_location ≤ ctx.location) :
    context_forget ctx =
      (ctx.location - ctx.last_location,
       { ctx with location := ctx.last_location },
       false) := by
  unfold context_forget
  rw [if_neg (Nat.not_lt.mpr h)]

/-! ### Claims C4 to C7 -/

/-- C4 counterexample: the claim quantifies over every arena state and
every successful allocation.  On the arena with location 50 and capacity
100 a request of 2 ^ 64 - 40 bytes succeeds (the size_t sum wraps to 10),
yet the immediately following forget returns 0 rather than the allocated
size, emits the error diagnostic, and leaves location at 10 instead of
restoring the pre-allocation value 50. -/
theorem c4_counterexample :
    (context_alloc ⟨List.replicate 100 0, 50, 0, 100⟩ (2 ^ 64 - 40)).1 = some 50 ∧
    (context_forget ((context_alloc ⟨List.replicate 100 0, 50, 0, 100⟩ (2 ^ 64 - 40)).2.1)).1 = 0 ∧
    (0 : Nat) ≠ 2 ^ 64 - 40 ∧
    (context_forget ((context_alloc ⟨List.replicate 100 0, 50, 0, 100⟩ (2 ^ 64 - 40)).2.1)).2.1.location = 10 ∧
    (context_forget ((context_alloc ⟨List.replicate 100 0, 50, 0, 100⟩ (2 ^ 64 - 40)).2.1)).2.2 = true := by
  decide

/-- C4 amended: for every arena (size_t capacity) and size N with
location + N ≤ capacity — so the allocation succeeds without the size_t
sum wrapping — context_forget immediately after the successful
context_alloc of N bytes returns N and restores location to its
pre-allocation value (the value stored in last_location), logging
nothing. -/
theorem c4_forget_after_alloc (ctx : Context) (N : Nat)
    (hcap : ctx.size < USIZE) (hfit : ctx.location + N ≤ ctx.size) :
    (context_alloc ctx N).1 = some ctx.location ∧
    context_forget (context_alloc ctx N).2.1 =
      (N, { ctx with last_location := ctx.location }, false) := by
  have hlt : ctx.location + N < USIZE := lt_of_le_of_lt hfit hcap
  rw [alloc_success_eq ctx N hlt hfit]
  refine ⟨rfl, ?_⟩
  rw [forget_success_eq _ (Nat.le_add_right _ _)]
  rw [Nat.add_sub_cancel_left]

/-- Witness for the amended C4 at a concrete arena of capacity 10 with
location 2 and an allocation of 4 bytes. -/
theorem c4_forget_after_alloc_witness :
    (⟨List.replicate 10 0, 2, 0, 10⟩ : Context).size < USIZE ∧
    (⟨List.replicate 10 0, 2, 0, 10⟩ : Context).location + 4 ≤
      (⟨List.replicate 10 0, 2, 0, 10⟩ : Context).size ∧
    ((context_alloc ⟨List.replicate 10 0, 2, 0, 10⟩ 4).1 = some 2 ∧
     context_forget (context_alloc ⟨List.replicate 10 0, 2, 0, 10⟩ 4).2.1 =
       (4, ⟨List.replicate 10 0, 2, 2, 10⟩, false)) :=
  ⟨by decide, by decide,
   by exact c4_forget_after_alloc ⟨List.replicate 10 0, 2, 0, 10⟩ 4 (by decide) (by decide)⟩

/-- C5 counterexample: run new_context 100, a 10-byte allocation, and one
forget; the resulting state has last_location = location = 0, so the
claimed failure condition last_location > location does not hold there,
and the second consecutive forget takes the success branch: it returns 0
with no diagnostic (flag false) and returns the state unchanged. -/
theorem c5_counterexample :
    context_forget (context_forget (context_alloc (new_context 100) 10).2.1).2.1 =
      (0, (context_forget (context_alloc (new_context 100) 10).2.1).2.1, false) ∧
    (context_forget (context_alloc (new_context 100) 10).2.1).2.1.last_location =
      (context_forget (context_alloc (new_context 100) 10).2.1).2.1.location ∧
    ¬ (context_forget (context_alloc (new_context 100) 10).2.1).2.1.last_location >
      (context_forget (context_alloc (new_context 100) 10).2.1).2.1.location := by
  decide

/-- C5 amended: for every arena with last_location ≤ location, a second
forget immediately after a forget returns 0 and changes no arena state,
but through the success branch: the first forget leaves
last_location = location, so the failure condition last_location >
location does not hold and no diagnostic is emitted. -/
theorem c5_double_forget (ctx : Context) (h : ctx.last_location ≤ ctx.location) :
    context_forget (context_forget ctx).2.1 = (0, (context_forget ctx).2.1, false) ∧
    (context_forget ctx).2.1.last_location = (context_forget ctx).2.1.location := by
  obtain ⟨buf, loc, last, sz⟩ := ctx
  have h' : last ≤ loc := h
  simp only [context_forget, gt_iff_lt, Nat.not_lt.mpr h', if_false]
  simp only [Nat.lt_irrefl, if_false, Nat.sub_self, and_self, and_true]

/-- Witness for the amended C5 at a concrete arena with location 5 and
last_location 3. -/
theorem c5_double_forget_witness :
    (⟨List.replicate 8 0, 5, 3, 8⟩ : Context).last_location ≤
      (⟨List.replicate 8 0, 5, 3, 8⟩ : Context).location ∧
    (context_forget (context_forget ⟨List.replicate 8 0, 5, 3, 8⟩).2.1 =
       (0, (context_forget ⟨List.replicate 8 0, 5, 3, 8⟩).2.1, false) ∧
     (context_forget ⟨List.replicate 8 0, 5, 3, 8⟩).2.1.last_location =
       (context_forget ⟨List.replicate 8 0, 5, 3, 8⟩).2.1.location) :=
  ⟨by decide, by exact c5_double_forget ⟨List.replicate 8 0, 5, 3, 8⟩ (by decide)⟩

/-- C6: evaluation of context_alloc_cstringf at the failing input — a
fresh 100-byte arena and the rendered output 4-2 (bytes 52, 45, 50) of
the format pass for the %d-%d example.  The measuring pass yields
length 3, exactly 4 = 3 + 1 bytes are allocated (location advances from 0
to 4, last_location stays 0), the four bytes 52, 45, 50, 0 are written at
the chunk, yet the function returns the NULL sentinel (none) instead of
the allocated chunk; the temporary-context variant
context_talloc_cstringf returns the chunk (some 0) on the same input. -/
theorem c6_cstringf_returns_null :
    (context_alloc_cstringf (new_context 100) [52, 45, 50]).1 = none ∧
    (context_alloc_cstringf (new_context 100) [52, 45, 50]).2.location = 4 ∧
    (context_alloc_cstringf (new_context 100) [52, 45, 50]).2.last_location = 0 ∧
    (context_alloc_cstringf (new_context 100) [52, 45, 50]).2.buffer.take 4 = [52, 45, 50, 0] ∧
    (context_talloc_cstringf global_temp_context [52, 45, 50]).1 = some 0 := by
  decide

/-- C7 counterexample: the claim says every scratch-singleton operation,
forget, clear and free included, first creates the singleton with the
default capacity when its capacity is 0.  Running context_tforget,
context_tclear or context_tfree on the uninitialised singleton leaves its
size at 0 — no creation with CTX_TEMP_SIZE = 1048576 happened (forget,
clear and free never change the size field, so after a lazy create the
size would be 1048576). -/
theorem c7_counterexample :
    global_temp_context.size = 0 ∧
    (context_tforget global_temp_context).2.1.size = 0 ∧
    (context_tclear global_temp_context).size = 0 ∧
    (context_tfree global_temp_context).size = 0 ∧
    (0 : Nat) ≠ CTX_TEMP_SIZE := by
  decide

/-- C7 amended: only the allocating scratch operations (context_talloc,
context_talloc_cstring, context_talloc_cstringf) check the singleton for
capacity 0 and lazily create it with the default capacity
CTX_TEMP_SIZE = 1,048,576 bytes before proceeding; context_tforget,
context_tclear and context_tfree delegate directly to the arena-level
operation with no initialisation check. -/
theorem c7_lazy_init (g : Context) (n : Nat) (str rendered : List Nat)
    (h0 : g.size = 0) :
    context_talloc g n = context_alloc (new_context CTX_TEMP_SIZE) n ∧
    context_talloc_cstring g str = context_alloc_cstring (new_context CTX_TEMP_SIZE) str ∧
    context_talloc_cstringf g rendered =
      context_talloc_cstringf (new_context CTX_TEMP_SIZE) rendered ∧
    context_tforget g = context_forget g ∧
    context_tclear g = context_clear g ∧
    context_tfree g = context_free g ∧
    CTX_TEMP_SIZE = 1048576 := by
  refine ⟨?_, ?_, ?_, rfl, rfl, rfl, rfl⟩
  · simp only [context_talloc, h0, reduceIte]
  · simp only [context_talloc_cstring, h0, reduceIte]
  · simp only [context_talloc_cstringf, h0, new_context_size_eq, temp_size_ne_zero,
      reduceIte, if_false]

/-- Witness for the amended C7 at the initial uninitialised singleton. -/
theorem c7_lazy_init_witness :
    global_temp_context.size = 0 ∧
    (context_talloc global_temp_context 4 = context_alloc (new_context CTX_TEMP_SIZE) 4 ∧
     context_talloc_cstring global_temp_context [104] =
       context_alloc_cstring (new_context CTX_TEMP_SIZE) [104] ∧
     context_talloc_cstringf global_temp_context [52] =
       context_talloc_cstringf (new_context CTX_TEMP_SIZE) [52] ∧
     context_tforget global_temp_context = context_forget global_temp_context ∧
     context_tclear global_temp_context = context_clear global_temp_context ∧
     context_tfree global_temp_context = context_free global_temp_context ∧
     CTX_TEMP_SIZE = 1048576) :=
  ⟨rfl, by exact c7_lazy_init global_temp_context 4 [104] [52] rfl⟩

end CTX

namespace CTX

/-! ### Sequences of allocations and reachable states -/

/-- Run a sequence of context_alloc requests, collecting each returned
chunk (as an optional byte offset) and threading the context. -/
def context_alloc_run : Context → List Nat → List (Option Nat) × Context
  | ctx, [] => ([], ctx)
  | ctx, n :: ns =>
      match context_alloc ctx n with
      | (r, ctx1, _) =>
          match context_alloc_run ctx1 ns with
          | (rs, ctx2) => (r :: rs, ctx2)

/-- The exclusive prefix sums of a list, shifted by off: the byte offset
at which each successive allocation of the list of sizes starts. -/
def prefixSums (off : Nat) : List Nat → List Nat
  | [] => []
  | n :: ns => off :: prefixSums (off + n) ns

/-- When the whole sequence of sizes fits in the remaining capacity and
the capacity is a size_t value, every allocation in the run succeeds and
returns the chunk at the corresponding shifted prefix sum. -/
theorem alloc_run_eq (sizes : List Nat) : ∀ ctx : Context,
    ctx.size < USIZE → ctx.location + sizes.sum ≤ ctx.size →
    (context_alloc_run ctx sizes).1 = (prefixSums ctx.location sizes).map some := by
  induction sizes with
  | nil => intro ctx _ _; rfl
  | cons n ns ih =>
    intro ctx hcap hfit
    rw [List.sum_cons] at hfit
    have hfit1 : ctx.location + n ≤ ctx.size := by omega
    have hlt : ctx.location + n < USIZE := Nat.lt_of_le_of_lt hfit1 hcap
    have hstep := alloc_success_eq ctx n hlt hfit1
    have ihh := ih { ctx with last_location := ctx.location, location := ctx.location + n }
      hcap (by show ctx.location + n + ns.sum ≤ ctx.size; omega)
    simp only [context_alloc_run, hstep, prefixSums, List.map_cons]
    rw [ihh]

/-- Entry k of the shifted prefix sums is off plus the sum of the first
k sizes. -/
theorem prefixSums_getD (l : List Nat) : ∀ off i : Nat, i < l.length →
    (prefixSums off l).getD i 0 = off + (l.take i).sum := by
  induction l with
  | nil => intro off i h; exact absurd h (Nat.not_lt_zero i)
  | cons n ns ih =>
    intro off i h
    cases i with
    | zero => simp [prefixSums]
    | succ j =>
      simp only [prefixSums, List.getD_cons_succ, List.take_succ_cons, List.sum_cons]
      rw [ih (off + n) j (Nat.lt_of_succ_lt_succ h)]
      omega

/-- The sum of a prefix of a list of naturals is at most the full sum. -/
theorem take_sum_le (l : List Nat) (i : Nat) : (l.take i).sum ≤ l.sum := by
  have h := List.sum_take_add_sum_drop l i
  omega

/-- Prefix sums of a list of naturals are monotone in the prefix
length. -/
theorem take_sum_mono (l : List Nat) (i j : Nat) (hij : i ≤ j) :
    (l.take i).sum ≤ (l.take j).sum := by
  have h := List.sum_take_add_sum_drop (l.take j) i
  rw [List.take_take, Nat.min_eq_left hij] at h
  omega

/-- Extending a prefix by one element adds that element to the prefix
sum. -/
theorem take_succ_sum (l : List Nat) (i : Nat) (h : i < l.length) :
    (l.take (i + 1)).sum = (l.take i).sum + l.getD i 0 := by
  rw [List.take_succ, List.sum_append]
  rw [List.getElem?_eq_getElem h]
  simp [List.getD_eq_getElem?_getD, List.getElem?_eq_getElem h]

/-- C3: on a freshly created arena of capacity C (a size_t value), any
sequence of allocation sizes summing to at most C makes every allocation
succeed, with the chunks starting at the prefix sums of the sizes in
request order; each region lies within the first C bytes of the buffer
(start + length ≤ C, shown for every index k), and the regions are
pairwise disjoint and in increasing address order (for every i < j, the
end of region i is at most the start of region j). -/
theorem c3_sequence_within_capacity (C : Nat) (sizes : List Nat) (i j k : Nat)
    (hC : C < USIZE) (hsum : sizes.sum ≤ C)
    (hij : i < j) (hj : j < sizes.length) (hk : k < sizes.length) :
    (context_alloc_run (new_context C) sizes).1 = (prefixSums 0 sizes).map some ∧
    (prefixSums 0 sizes).getD k 0 + sizes.getD k 0 ≤ C ∧
    (prefixSums 0 sizes).getD i 0 + sizes.getD i 0 ≤ (prefixSums 0 sizes).getD j 0 := by
  have hi : i < sizes.length := Nat.lt_trans hij hj
  have hrun := alloc_run_eq sizes (new_context C) hC
    (by show 0 + sizes.sum ≤ C; omega)
  refine ⟨hrun, ?_, ?_⟩
  · rw [prefixSums_getD sizes 0 k hk, Nat.zero_add, ← take_succ_sum sizes k hk]
    exact Nat.le_trans (take_sum_le sizes (k + 1)) hsum
  · rw [prefixSums_getD sizes 0 i hi, prefixSums_getD sizes 0 j hj,
       Nat.zero_add, Nat.zero_add, ← take_succ_sum sizes i hi]
    exact take_sum_mono sizes (i + 1) j hij

/-- Witness for C3 on a capacity-9 arena with the size sequence
2, 3, 4 and indices i = 0, j = 1, k = 2. -/
theorem c3_sequence_within_capacity_witness :
    (9 < USIZE ∧ [2, 3, 4].sum ≤ 9 ∧ 0 < 1 ∧ 1 < [2, 3, 4].length ∧
      2 < [2, 3, 4].length) ∧
    ((context_alloc_run (new_context 9) [2, 3, 4]).1 = (prefixSums 0 [2, 3, 4]).map some ∧
     (prefixSums 0 [2, 3, 4]).getD 2 0 + [2, 3, 4].getD 2 0 ≤ 9 ∧
     (prefixSums 0 [2, 3, 4]).getD 0 0 + [2, 3, 4].getD 0 0 ≤ (prefixSums 0 [2, 3, 4]).getD 1 0) :=
  ⟨⟨by decide, by decide, by decide, by decide, by decide⟩,
   by exact c3_sequence_within_capacity 9 [2, 3, 4] 0 1 2 (by decide) (by decide)
        (by decide) (by decide) (by decide)⟩

end CTX

namespace CTX

/-- States reachable from construction by any sequence of create,
allocate, forget, clear and free calls, where every allocate request is
restricted to sums that stay below the size_t modulus (no wraparound in
the capacity check). -/
inductive ReachS : Context → Prop
  | create (C : Nat) : ReachS (new_context C)
  | alloc (s : Context) (n : Nat) (hs : ReachS s)
      (hnw : s.location + n < USIZE) : ReachS (context_alloc s n).2.1
  | forget (s : Context) (hs : ReachS s) : ReachS (context_forget s).2.1
  | clear (s : Context) (hs : ReachS s) : ReachS (context_clear s)
  | free (s : Context) (hs : ReachS s) : ReachS (context_free s)

/-- States reachable from a freshly created arena by any sequence of
allocate, forget and clear calls, with the same no-wraparound restriction
on allocate requests. -/
inductive ReachT : Context → Prop
  | init (C : Nat) : ReachT (new_context C)
  | alloc (s : Context) (n : Nat) (hs : ReachT s)
      (hnw : s.location + n < USIZE) : ReachT (context_alloc s n).2.1
  | forget (s : Context) (hs : ReachT s) : ReachT (context_forget s).2.1
  | clear (s : Context) (hs : ReachT s) : ReachT (context_clear s)

/-- context_alloc preserves the cursor invariant when its size_t sum
does not wrap. -/
theorem inv_alloc (s : Context) (n : Nat) (hnw : s.location + n < USIZE)
    (h1 : s.last_location ≤ s.location) (h2 : s.location ≤ s.size) :
    (context_alloc s n).2.1.last_location ≤ (context_alloc s n).2.1.location ∧
    (context_alloc s n).2.1.location ≤ (context_alloc s n).2.1.size := by
  unfold context_alloc
  rw [Nat.mod_eq_of_lt hnw]
  by_cases hc : s.location + n > s.size
  · rw [if_pos hc]
    exact ⟨h1, h2⟩
  · rw [if_neg hc]
    exact ⟨Nat.le_add_right _ _, Nat.not_lt.mp hc⟩

/-- context_forget preserves the cursor invariant. -/
theorem inv_forget (s : Context)
    (h1 : s.last_location ≤ s.location) (h2 : s.location ≤ s.size) :
    (context_forget s).2.1.last_location ≤ (context_forget s).2.1.location ∧
    (context_forget s).2.1.location ≤ (context_forget s).2.1.size := by
  rw [forget_success_eq s h1]
  exact ⟨Nat.le_refl _, Nat.le_trans h1 h2⟩

/-- Two consecutive forgets from a state satisfying the cursor invariant:
the first leaves last_location = location, the second returns 0, changes
nothing and logs nothing. -/
theorem double_forget_eq (ctx : Context) (h : ctx.last_location ≤ ctx.location) :
    context_forget (context_forget ctx).2.1 = (0, (context_forget ctx).2.1, false) ∧
    (context_forget ctx).2.1.last_location = (context_forget ctx).2.1.location := by
  obtain ⟨buf, loc, last, sz⟩ := ctx
  have h' : last ≤ loc := h
  simp only [context_forget, gt_iff_lt, Nat.not_lt.mpr h', if_false]
  simp only [Nat.lt_irrefl, if_false, Nat.sub_self, and_self, and_true]

/-- C8 counterexample: the state reached from new_context 100 by an
allocation of 50 bytes followed by a request of 2 ^ 64 - 40 bytes (whose
size_t sum wraps to 10, defeating the capacity check) has
last_location = 50 and location = 10, violating the claimed invariant
last_offset ≤ offset on a reachable state. -/
theorem c8_counterexample :
    (context_alloc (context_alloc (new_context 100) 50).2.1 (2 ^ 64 - 40)).2.1.last_location = 50 ∧
    (context_alloc (context_alloc (new_context 100) 50).2.1 (2 ^ 64 - 40)).2.1.location = 10 ∧
    ¬ (context_alloc (context_alloc (new_context 100) 50).2.1 (2 ^ 64 - 40)).2.1.last_location ≤
      (context_alloc (context_alloc (new_context 100) 50).2.1 (2 ^ 64 - 40)).2.1.location := by
  decide

/-- C8 amended: in every state reachable from construction by create,
allocate, forget, clear and free, with every allocate request restricted
so that its size_t sum location + size does not wrap past 2 ^ 64, the
invariant last_location ≤ location ≤ size holds; and for every state,
context_free leaves size = location = last_location = 0. -/
theorem c8_invariant (s : Context) (hs : ReachS s) :
    (s.last_location ≤ s.location ∧ s.location ≤ s.size) ∧
    ((context_free s).size = 0 ∧ (context_free s).location = 0 ∧
     (context_free s).last_location = 0) := by
  refine ⟨?_, rfl, rfl, rfl⟩
  induction hs with
  | create C => exact ⟨Nat.le_refl 0, Nat.zero_le C⟩
  | alloc s n hs hnw ih => exact inv_alloc s n hnw ih.1 ih.2
  | forget s hs ih => exact inv_forget s ih.1 ih.2
  | clear s hs ih => exact ⟨Nat.le_refl 0, Nat.zero_le _⟩
  | free s hs ih => exact ⟨Nat.le_refl 0, Nat.le_refl 0⟩

/-- Witness for the amended C8 at the freshly created 5-byte arena. -/
theorem c8_invariant_witness :
    ((new_context 5).last_location ≤ (new_context 5).location ∧
      (new_context 5).location ≤ (new_context 5).size) ∧
    ((context_free (new_context 5)).size = 0 ∧
     (context_free (new_context 5)).location = 0 ∧
     (context_free (new_context 5)).last_location = 0) :=
  c8_invariant (new_context 5) (ReachS.create 5)

/-- C10 counterexample: from new_context 100, allocating 50 bytes and
then 2 ^ 64 - 40 bytes (the size_t sum wraps to 10 and the capacity
check passes) reaches a state in which context_forget takes the error
branch: it logs the diagnostic (flag true) and returns 0, so the error
branch of forget is reachable from a freshly created arena by allocate
operations alone. -/
theorem c10_counterexample :
    (context_forget (context_alloc (context_alloc (new_context 100) 50).2.1 (2 ^ 64 - 40)).2.1).2.2 = true ∧
    (context_forget (context_alloc (context_alloc (new_context 100) 50).2.1 (2 ^ 64 - 40)).2.1).1 = 0 := by
  decide

/-- C10 amended: in every state reachable from a freshly created arena by
allocate, forget and clear, with every allocate request restricted so
that its size_t sum location + size does not wrap past 2 ^ 64,
last_location ≤ location holds, so context_forget never takes the error
branch (it never logs), and a second consecutive forget returns 0 through
the success path, changing nothing and emitting no diagnostic. -/
theorem c10_forget_error_unreachable (s : Context) (hs : ReachT s) :
    s.last_location ≤ s.location ∧
    (context_forget s).2.2 = false ∧
    context_forget (context_forget s).2.1 = (0, (context_forget s).2.1, false) := by
  have hinv : s.last_location ≤ s.location ∧ s.location ≤ s.size := by
    induction hs with
    | init C => exact ⟨Nat.le_refl 0, Nat.zero_le C⟩
    | alloc s n hs hnw ih => exact inv_alloc s n hnw ih.1 ih.2
    | forget s hs ih => exact inv_forget s ih.1 ih.2
    | clear s hs ih => exact ⟨Nat.le_refl 0, Nat.zero_le _⟩
  refine ⟨hinv.1, ?_, (double_forget_eq s hinv.1).1⟩
  rw [forget_success_eq s hinv.1]

/-- Witness for the amended C10 at the freshly created 7-byte arena. -/
theorem c10_forget_error_unreachable_witness :
    (new_context 7).last_location ≤ (new_context 7).location ∧
    (context_forget (new_context 7)).2.2 = false ∧
    context_forget (context_forget (new_context 7)).2.1 =
      (0, (context_forget (new_context 7)).2.1, false) :=
  c10_forget_error_unreachable (new_context 7) (ReachT.init 7)

end CTX
